import Mathlib

/-!
Verification development for the eth_balance_server repository
(src/eth_balance_server.py), a small MCP tool server exposing two
handlers, get_wallet_balance and analyze_wallet_risk, over a registry
of blockchain RPC clients built at startup.

Shallow embedding conventions:
* Python exceptions are modelled by the inductive `Exc`; code that can
  raise returns `Except Exc α`.
* The upstream world (RPC balance calls, solders pubkey parsing, the
  classification HTTP endpoint) is an oracle record `Env`.
* Python floats are modelled exactly as rationals; the divisions by
  10 to the 18 and by 10 to the 9 performed by the handlers are exact
  rational divisions.
* Python dict results are modelled by the sum types `BalanceResult`
  and `RiskResult`: the constructor `.error s` stands for the dict
  mapping the key "error" to s, and the positional fields of `.ok`
  stand for the remaining dict keys in source order.
-/

namespace EthBalance

/-- Python exception values observable by the handlers. `valueError`
covers ValueError and its subclasses, which includes the invalid-address
failures raised by the web3 and solders libraries; `keyError` is a dict
lookup failure; `otherError` is any other Exception (network errors,
HTTP status errors, unexpected response shapes, attribute errors). -/
inductive Exc where
  | valueError (msg : String)
  | keyError (key : String)
  | otherError (msg : String)
deriving DecidableEq, Repr

/-- Python str of an exception: str of a KeyError is the repr of the
missing key, which wraps it in single quotes. -/
def excMessage : Exc → String
  | .valueError m => m
  | .keyError k => "\x27" ++ k ++ "\x27"
  | .otherError m => m

/-- A chain connection handle stored in the registry: either an
account-model AsyncWeb3 client or the Solana AsyncClient. Each is
modelled by its balance oracle, giving the raw smallest-unit integer
balance the RPC returns for an address string (or the exception the
call raises). For the Solana client the argument is the parsed pubkey. -/
inductive Client where
  | evm (get_balance : String → Except Exc Nat)
  | sol (get_balance : String → Except Exc Nat)

/-- The registry mapping chain-name strings to connection handles
(the Python dict clients, exposed as mcp.state.clients), kept in
insertion order. -/
abbrev Registry := List (String × Client)

/-- Python dict indexing clients[key]: raises KeyError when the key is
absent. -/
def lookupClient (clients : Registry) (key : String) : Except Exc Client :=
  match clients.find? (fun p => p.1 == key) with
  | some p => .ok p.2
  | none => .error (.keyError key)

/-- clients[name].eth.get_balance(address): the account-model balance
call; accessing .eth on the Solana client would raise AttributeError. -/
def Client.eth_get_balance : Client → String → Except Exc Nat
  | .evm f, address => f address
  | .sol _, _ => .error (.otherError "AttributeError")

/-- clients[name].get_balance(pubkey) on the Solana client; the
account-model clients have no such method taking a pubkey. -/
def Client.sol_get_balance : Client → String → Except Exc Nat
  | .sol f, pubkey => f pubkey
  | .evm _, _ => .error (.otherError "AttributeError")

/-- One candidate of the classification response: a dict with keys
label and score. -/
structure Candidate where
  label : String
  score : ℚ
deriving DecidableEq, Repr

/-- The external world as seen by the program: each field is one kind
of upstream interaction. -/
structure Env where
  /-- make_request of web3_clientVersion against an RPC URL, done once
  per account-model chain at startup. -/
  probe : String → Except Exc String
  /-- the balance oracle of the AsyncWeb3 client constructed for a
  given RPC URL: maps an address to the raw wei balance. -/
  mkEvm : String → String → Except Exc Nat
  /-- solders Pubkey.from_string: parses an address string into the
  native key-address encoding or raises (a ValueError on malformed
  input). -/
  pubkey_from_string : String → Except Exc String
  /-- one POST of a prompt to the huggingface classification endpoint,
  returning the parsed candidate list; raised HTTP errors, timeouts and
  shape mismatches appear as exceptions. -/
  classify : String → Except Exc (List Candidate)

/-- The three environment-sourced RPC endpoint values; `none` models an
unset variable, `some ""` an empty one. -/
structure Config where
  ETH_RPC : Option String
  POL_RPC : Option String
  ARB_RPC : Option String

/-- The body of the startup for-loop over the chains dict (lines 39-48
of the source), processed in insertion order: a falsy URL (absent or
empty, Python `if not rpc_url`) raises ValueError naming the chain; a
probe failure propagates; on success the AsyncWeb3 client is appended
under the chain name. -/
def initLoop (env : Env) : List (String × Option String) → Registry → Except Exc Registry
  | [], clients => .ok clients
  | (chain_name, rpc_url) :: rest, clients =>
    match rpc_url with
    | none => .error (.valueError ("Missing RPC URL for " ++ chain_name))
    | some url =>
      if url.isEmpty then
        .error (.valueError ("Missing RPC URL for " ++ chain_name))
      else
        match env.probe url with
        | .error e => .error e
        | .ok _version =>
          initLoop env rest (clients ++ [(chain_name, Client.evm (env.mkEvm url))])

/-- initialize_blockchain_clients (source lines 28-58): builds the
clients dict from the three configured endpoints. After the loop the
source constructs the Solana client (SolClient against the fixed
mainnet URL) and logs a connection message, but never inserts it into
clients; the returned registry is exactly the loop result. -/
def initialize_blockchain_clients (env : Env) (cfg : Config) : Except Exc Registry :=
  initLoop env
    [("ethereum", cfg.ETH_RPC), ("polygon", cfg.POL_RPC), ("arbitrum", cfg.ARB_RPC)] []

/-- Observable outcome of the `__main__` block. -/
structure MainResult where
  /-- whether mcp.run was reached, i.e. the server went on to serve
  tool calls -/
  servedRequests : Bool
  /-- the value of mcp.state.clients when serving starts; `__main__`
  never assigns it -/
  state_clients : Option Registry
  /-- the process exit status -/
  exitCode : Nat

/-- The `__main__` block (source lines 137-149): runs
initialize_blockchain_clients, discarding its result; on success it
calls mcp.run, with mcp.state.clients still unassigned; on failure the
exception is caught by the except clause, logged, and the script ends
normally, so the exit status is 0 on every path. -/
def main_run (env : Env) (cfg : Config) : MainResult :=
  match initialize_blockchain_clients env cfg with
  | .error _ => { servedRequests := false, state_clients := none, exitCode := 0 }
  | .ok _clients => { servedRequests := true, state_clients := none, exitCode := 0 }

/-- Outcome of initialize_server: either the registry it stored into
mcp.state.clients, or the exit status passed to os._exit. -/
inductive InitServerOutcome where
  | ok (clients : Registry)
  | exited (code : Nat)

/-- initialize_server (source lines 61-68): assigns the registry to
mcp.state.clients, or calls os._exit(1) on any initialization failure.
The `__main__` block never calls this function. -/
def initialize_server (env : Env) (cfg : Config) : InitServerOutcome :=
  match initialize_blockchain_clients env cfg with
  | .ok clients => .ok clients
  | .error _ => .exited 1

/-- Result dict of get_wallet_balance: either the success dict with
keys chain and balance, or the error dict. -/
inductive BalanceResult where
  | ok (chain : String) (balance : ℚ)
  | error (msg : String)
deriving DecidableEq, Repr

/-- Result dict of analyze_wallet_risk: either the success dict with
keys address, chain, balance and risk_analysis, or the error dict. -/
inductive RiskResult where
  | ok (address chain : String) (balance : ℚ) (risk_analysis : Candidate)
  | error (msg : String)
deriving DecidableEq, Repr

/-- Python str.lower, modelled on the character list with the ASCII
case mapping (the same per-character mapping as String.toLower, stated
structurally so that it computes by kernel reduction); it agrees with
Python on every string whose lowercase form could equal one of the
ASCII chain aliases. -/
def pyLower (s : String) : String := String.mk (s.data.map Char.toLower)

/-- The try-block of get_wallet_balance (source lines 74-95), before
exception handling: lowercases the chain, dispatches on the alias
lists, and either produces a result dict or raises. The Solana branch
parses the address before touching the registry, exactly as in the
source. -/
def get_wallet_balance_body (env : Env) (clients : Registry) (address chain0 : String) :
    Except Exc BalanceResult :=
  let chain := pyLower chain0
  if chain = "eth" ∨ chain = "ethereum" then
    match lookupClient clients "ethereum" with
    | .error e => .error e
    | .ok c =>
      match c.eth_get_balance address with
      | .error e => .error e
      | .ok balance_wei => .ok (.ok "Ethereum" ((balance_wei : ℚ) / 10 ^ 18))
  else if chain = "polygon" ∨ chain = "matic" then
    match lookupClient clients "polygon" with
    | .error e => .error e
    | .ok c =>
      match c.eth_get_balance address with
      | .error e => .error e
      | .ok balance_wei => .ok (.ok "Polygon" ((balance_wei : ℚ) / 10 ^ 18))
  else if chain = "arbitrum" then
    match lookupClient clients "arbitrum" with
    | .error e => .error e
    | .ok c =>
      match c.eth_get_balance address with
      | .error e => .error e
      | .ok balance_wei => .ok (.ok "Arbitrum" ((balance_wei : ℚ) / 10 ^ 18))
  else if chain = "solana" then
    match env.pubkey_from_string address with
    | .error e => .error e
    | .ok pubkey =>
      match lookupClient clients "solana" with
      | .error e => .error e
      | .ok c =>
        match c.sol_get_balance pubkey with
        | .error e => .error e
        | .ok lamports => .ok (.ok "Solana" ((lamports : ℚ) / 10 ^ 9))
  else .ok (.error "Unsupported chain")

/-- The except clauses of get_wallet_balance (source lines 97-102):
a ValueError becomes the fixed invalid-address error dict, any other
exception is stringified into the error dict. -/
def handle : Except Exc BalanceResult → BalanceResult
  | .ok result => result
  | .error (.valueError _) => .error "Invalid wallet address"
  | .error e => .error (excMessage e)

/-- get_wallet_balance (source lines 71-102): the try-block wrapped in
the exception handlers. -/
def get_wallet_balance (env : Env) (clients : Registry) (address chain : String) :
    BalanceResult :=
  handle (get_wallet_balance_body env clients address chain)

/-- Python max over the candidate list with key score: the running
maximum is replaced only when a later score is strictly greater, so the
first maximal element wins; the empty list yields none (Python raises
ValueError there). -/
def pymax : List Candidate → Option Candidate
  | [] => none
  | x :: xs => some (xs.foldl (fun best y => if best.score < y.score then y else best) x)

/-- The prompt string built by analyze_wallet_risk (source line 120)
from the address, the balance reported by get_wallet_balance, and the
chain string as supplied by the caller. -/
def promptFor (address : String) (balance : ℚ) (chain : String) : String :=
  "Analyze risk profile for " ++ address ++ " with " ++ toString balance ++ " " ++
    chain ++ " balance"

/-- analyze_wallet_risk (source lines 106-135). Returns the result dict
paired with the number of classification HTTP requests issued (0 or 1).
If the balance dict contains the key "error" it is returned verbatim
with no request; otherwise one POST is made, any exception from it (a
non-success status via raise_for_status, a timeout, a shape mismatch)
is stringified into the error dict, an empty candidate list makes the
Python max call raise, and otherwise the success dict echoes address,
the caller-supplied chain, the balance, and the selected candidate. -/
def analyze_wallet_risk (env : Env) (clients : Registry) (address chain : String) :
    RiskResult × Nat :=
  match get_wallet_balance env clients address chain with
  | .error msg => (.error msg, 0)
  | .ok _bchain balance =>
    match env.classify (promptFor address balance chain) with
    | .error e => (.error (excMessage e), 1)
    | .ok results =>
      match pymax results with
      | none => (.error "max() arg is an empty sequence", 1)
      | some best => (.ok address chain balance best, 1)

/-- The ethereum-family branch of the handler body, parameterized by
the registry key it reads and the canonical display name it reports;
each of the three account-model branches of get_wallet_balance_body is
this term at the corresponding constants. -/
def evmBranch (clients : Registry) (key displayName address : String) :
    Except Exc BalanceResult :=
  match lookupClient clients key with
  | .error e => .error e
  | .ok c =>
    match c.eth_get_balance address with
    | .error e => .error e
    | .ok balance_wei => .ok (.ok displayName ((balance_wei : ℚ) / 10 ^ 18))

/-- The solana branch of the handler body: parse the address, look up
the solana registry entry, query and scale the balance. -/
def solBranch (env : Env) (clients : Registry) (address : String) :
    Except Exc BalanceResult :=
  match env.pubkey_from_string address with
  | .error e => .error e
  | .ok pubkey =>
    match lookupClient clients "solana" with
    | .error e => .error e
    | .ok c =>
      match c.sol_get_balance pubkey with
      | .error e => .error e
      | .ok lamports => .ok (.ok "Solana" ((lamports : ℚ) / 10 ^ 9))

/-! Concrete fixtures used by the witness theorems. -/

/-- A concrete healthy environment: probes succeed, every account-model
balance query returns 10 to the 18 wei, the solana balance query
returns 500000000 lamports, the pubkey parser rejects exactly the
address "bad", and the classifier always returns the two-candidate
list from the specification example. -/
def envW : Env where
  probe := fun _ => .ok "Geth/v1.14.0"
  mkEvm := fun _ _ => .ok (10 ^ 18)
  pubkey_from_string := fun address =>
    if address = "bad" then .error (.valueError "string decoded to wrong size for type")
    else .ok address
  classify := fun _ => .ok [⟨"positive", 1 / 5⟩, ⟨"negative", 9 / 10⟩]

/-- A concrete fully-populated configuration. -/
def cfgW : Config where
  ETH_RPC := some "http://eth"
  POL_RPC := some "http://pol"
  ARB_RPC := some "http://arb"

/-- The registry a successful startup under `envW`/`cfgW` builds. -/
def regW : Registry :=
  [("ethereum", Client.evm (envW.mkEvm "http://eth")),
   ("polygon", Client.evm (envW.mkEvm "http://pol")),
   ("arbitrum", Client.evm (envW.mkEvm "http://arb"))]

/-- A four-entry registry as the handlers expect it, with distinct
balance oracles per chain. -/
def regW4 : Registry :=
  [("ethereum", Client.evm fun _ => .ok (10 ^ 18)),
   ("polygon", Client.evm fun _ => .ok (2 * 10 ^ 18)),
   ("arbitrum", Client.evm fun _ => .ok (3 * 10 ^ 18)),
   ("solana", Client.sol fun _ => .ok 500000000)]

/-! Routing lemmas: under each alias hypothesis the handler reduces to
the branch that consults the corresponding registry entry. -/

theorem gwb_eth (env : Env) (clients : Registry) (address chain : String)
    (h : pyLower chain = "eth" ∨ pyLower chain = "ethereum") :
    get_wallet_balance env clients address chain =
      handle (evmBranch clients "ethereum" "Ethereum" address) := by
  unfold get_wallet_balance get_wallet_balance_body evmBranch
  rcases h with h | h <;> rw [h] <;> simp

theorem gwb_polygon (env : Env) (clients : Registry) (address chain : String)
    (h : pyLower chain = "polygon" ∨ pyLower chain = "matic") :
    get_wallet_balance env clients address chain =
      handle (evmBranch clients "polygon" "Polygon" address) := by
  unfold get_wallet_balance get_wallet_balance_body evmBranch
  rcases h with h | h <;> rw [h] <;> simp

theorem gwb_arbitrum (env : Env) (clients : Registry) (address chain : String)
    (h : pyLower chain = "arbitrum") :
    get_wallet_balance env clients address chain =
      handle (evmBranch clients "arbitrum" "Arbitrum" address) := by
  unfold get_wallet_balance get_wallet_balance_body evmBranch
  rw [h]; simp

theorem gwb_solana (env : Env) (clients : Registry) (address chain : String)
    (h : pyLower chain = "solana") :
    get_wallet_balance env clients address chain =
      handle (solBranch env clients address) := by
  unfold get_wallet_balance get_wallet_balance_body solBranch
  rw [h]; simp

theorem gwb_unsupported (env : Env) (clients : Registry) (address chain : String)
    (h : pyLower chain ∉
      (["eth", "ethereum", "polygon", "matic", "arbitrum", "solana"] : List String)) :
    get_wallet_balance env clients address chain = .error "Unsupported chain" := by
  simp only [List.mem_cons, List.not_mem_nil, or_false, not_or] at h
  obtain ⟨h1, h2, h3, h4, h5, h6⟩ := h
  unfold get_wallet_balance get_wallet_balance_body handle
  simp [h1, h2, h3, h4, h5, h6]

/-! Branch result lemmas. -/

theorem evmBranch_balance (clients : Registry) (key displayName address : String)
    (f : String → Except Exc Nat) (w : Nat)
    (hc : lookupClient clients key = .ok (.evm f)) (hw : f address = .ok w) :
    handle (evmBranch clients key displayName address) =
      .ok displayName ((w : ℚ) / 10 ^ 18) := by
  unfold evmBranch
  rw [hc]
  simp [Client.eth_get_balance, hw, handle]

theorem evmBranch_valueError (clients : Registry) (key displayName address : String)
    (f : String → Except Exc Nat) (m : String)
    (hc : lookupClient clients key = .ok (.evm f))
    (hw : f address = .error (.valueError m)) :
    handle (evmBranch clients key displayName address) =
      .error "Invalid wallet address" := by
  unfold evmBranch
  rw [hc]
  simp [Client.eth_get_balance, hw, handle]

theorem handle_ok_inv (x : Except Exc BalanceResult) (ch : String) (bal : ℚ)
    (h : handle x = .ok ch bal) : x = .ok (.ok ch bal) := by
  cases x with
  | ok r => cases r <;> simp_all [handle]
  | error e => cases e <;> simp [handle] at h

theorem evmBranch_ok_chain (clients : Registry) (key displayName address ch : String)
    (bal : ℚ) (h : handle (evmBranch clients key displayName address) = .ok ch bal) :
    ch = displayName := by
  replace h := handle_ok_inv _ _ _ h
  unfold evmBranch at h
  split at h
  · exact absurd h (by simp)
  · split at h
    · exact absurd h (by simp)
    · simp at h
      exact h.1.symm

theorem solBranch_balance (env : Env) (clients : Registry) (address pk : String)
    (g : String → Except Exc Nat) (w : Nat)
    (hp : env.pubkey_from_string address = .ok pk)
    (hc : lookupClient clients "solana" = .ok (.sol g))
    (hw : g pk = .ok w) :
    handle (solBranch env clients address) = .ok "Solana" ((w : ℚ) / 10 ^ 9) := by
  unfold solBranch
  rw [hp, hc]
  simp [Client.sol_get_balance, hw, handle]

theorem solBranch_invalid (env : Env) (clients : Registry) (address m : String)
    (hp : env.pubkey_from_string address = .error (.valueError m)) :
    handle (solBranch env clients address) = .error "Invalid wallet address" := by
  unfold solBranch
  rw [hp]
  simp [handle]

theorem solBranch_ok_chain (env : Env) (clients : Registry) (address ch : String)
    (bal : ℚ) (h : handle (solBranch env clients address) = .ok ch bal) :
    ch = "Solana" := by
  replace h := handle_ok_inv _ _ _ h
  unfold solBranch at h
  split at h
  · exact absurd h (by simp)
  · split at h
    · exact absurd h (by simp)
    · split at h
      · exact absurd h (by simp)
      · simp at h
        exact h.1.symm

/-! Startup registry lemmas. -/

theorem initLoop_keys (env : Env) (chains : List (String × Option String)) :
    ∀ (acc r : Registry), initLoop env chains acc = .ok r →
      r.map Prod.fst = acc.map Prod.fst ++ chains.map Prod.fst := by
  induction chains with
  | nil =>
    intro acc r h
    simp only [initLoop] at h
    cases h
    simp
  | cons p rest ih =>
    intro acc r h
    obtain ⟨name, url⟩ := p
    unfold initLoop at h
    split at h
    · exact absurd h (by simp)
    · split at h
      · exact absurd h (by simp)
      · split at h
        · exact absurd h (by simp)
        · have := ih _ r h
          simpa using this

theorem init_keys (env : Env) (cfg : Config) (r : Registry)
    (h : initialize_blockchain_clients env cfg = .ok r) :
    r.map Prod.fst = ["ethereum", "polygon", "arbitrum"] := by
  simpa using initLoop_keys env _ [] r h

theorem find?_eq_none_of_key_not_mem (l : Registry) (k : String)
    (h : k ∉ l.map Prod.fst) : l.find? (fun p => p.1 == k) = none := by
  induction l with
  | nil => rfl
  | cons p rest ih =>
    simp only [List.map_cons, List.mem_cons, not_or] at h
    rw [List.find?_cons_of_neg]
    · exact ih h.2
    · simp only [beq_iff_eq]
      exact fun hh => h.1 hh.symm

theorem lookupClient_missing (l : Registry) (k : String) (h : k ∉ l.map Prod.fst) :
    lookupClient l k = .error (.keyError k) := by
  unfold lookupClient
  rw [find?_eq_none_of_key_not_mem l k h]

/-! Lemmas about the Python max fold: it returns an element of the
list, its score bounds every score in the list, and no element strictly
earlier in the list reaches its score (first-max semantics). -/

theorem pymax_fold_mem (xs : List Candidate) :
    ∀ x : Candidate,
      xs.foldl (fun best y => if best.score < y.score then y else best) x ∈ x :: xs := by
  induction xs with
  | nil => intro x; simp
  | cons y ys ih =>
    intro x
    simp only [List.foldl_cons]
    by_cases hxy : x.score < y.score
    · rw [if_pos hxy]
      exact List.mem_cons_of_mem x (ih y)
    · rw [if_neg hxy]
      rcases List.mem_cons.1 (ih x) with h | h
      · rw [h]; exact List.mem_cons_self x (y :: ys)
      · exact List.mem_cons_of_mem x (List.mem_cons_of_mem y h)

theorem pymax_fold_le (xs : List Candidate) :
    ∀ x : Candidate,
      x.score ≤ (xs.foldl (fun best y => if best.score < y.score then y else best) x).score ∧
      ∀ z ∈ xs,
        z.score ≤ (xs.foldl (fun best y => if best.score < y.score then y else best) x).score := by
  induction xs with
  | nil => intro x; exact ⟨le_refl _, by simp⟩
  | cons y ys ih =>
    intro x
    simp only [List.foldl_cons]
    by_cases hxy : x.score < y.score
    · rw [if_pos hxy]
      obtain ⟨h1, h2⟩ := ih y
      refine ⟨le_trans (le_of_lt hxy) h1, ?_⟩
      intro z hz
      rcases List.mem_cons.1 hz with rfl | hz
      · exact h1
      · exact h2 z hz
    · rw [if_neg hxy]
      obtain ⟨h1, h2⟩ := ih x
      refine ⟨h1, ?_⟩
      intro z hz
      rcases List.mem_cons.1 hz with rfl | hz
      · exact le_trans (not_lt.1 hxy) h1
      · exact h2 z hz

theorem pymax_fold_first (xs : List Candidate) :
    ∀ x : Candidate,
      xs.foldl (fun best y => if best.score < y.score then y else best) x = x ∨
      (x.score <
          (xs.foldl (fun best y => if best.score < y.score then y else best) x).score ∧
        xs.find? (fun z => decide
            ((xs.foldl (fun best y => if best.score < y.score then y else best) x).score ≤
              z.score)) =
          some (xs.foldl (fun best y => if best.score < y.score then y else best) x)) := by
  induction xs with
  | nil => intro x; exact Or.inl rfl
  | cons y ys ih =>
    intro x
    simp only [List.foldl_cons]
    by_cases hxy : x.score < y.score
    · simp only [if_pos hxy]
      right
      rcases ih y with h | ⟨h1, h2⟩
      · rw [h]
        refine ⟨hxy, ?_⟩
        rw [List.find?_cons_of_pos]
        simp
      · refine ⟨lt_trans hxy h1, ?_⟩
        rw [List.find?_cons_of_neg, h2]
        simp [not_le.2 h1]
    · simp only [if_neg hxy]
      rcases ih x with h | ⟨h1, h2⟩
      · left; exact h
      · right
        refine ⟨h1, ?_⟩
        rw [List.find?_cons_of_neg, h2]
        have hy : y.score <
            (ys.foldl (fun best y => if best.score < y.score then y else best) x).score :=
          lt_of_le_of_lt (not_lt.1 hxy) h1
        simp [not_le.2 hy]

/-! Claim theorems. -/

/-- Claim C1: the registry read by the handlers is required to contain
an entry for every supported chain (ethereum, polygon, arbitrum,
solana) after a successful startup, else the process must not serve.
The code violates this: a fully successful
initialize_blockchain_clients returns a registry whose keys are exactly
ethereum, polygon and arbitrum — the Solana client is constructed and
dropped, so looking up "solana" raises KeyError — and the main block
still goes on to serve requests, moreover never assigning
mcp.state.clients at all. -/
theorem c1_registry_missing_solana_yet_serves
    (env : Env) (cfg : Config) (reg : Registry)
    (h : initialize_blockchain_clients env cfg = .ok reg) :
    reg.map Prod.fst = ["ethereum", "polygon", "arbitrum"] ∧
    lookupClient reg "solana" = .error (.keyError "solana") ∧
    (main_run env cfg).servedRequests = true ∧
    (main_run env cfg).state_clients = none := by
  have hk := init_keys env cfg reg h
  refine ⟨hk, lookupClient_missing reg "solana" (by rw [hk]; simp), ?_, ?_⟩ <;>
    simp [main_run, h]

/-- Witness for C1: the concrete healthy environment and full
configuration start up successfully, yet the registry lacks the solana
entry and the server serves. -/
theorem c1_witness :
    regW.map Prod.fst = ["ethereum", "polygon", "arbitrum"] ∧
    lookupClient regW "solana" = .error (.keyError "solana") ∧
    (main_run envW cfgW).servedRequests = true ∧
    (main_run envW cfgW).state_clients = none :=
  c1_registry_missing_solana_yet_serves envW cfgW regW rfl

/-- Configuration with the first endpoint absent. -/
def cfgNoEth : Config where
  ETH_RPC := none
  POL_RPC := some "http://pol"
  ARB_RPC := some "http://arb"

/-- Configuration with the first endpoint present but empty. -/
def cfgEmptyEth : Config where
  ETH_RPC := some ""
  POL_RPC := some "http://pol"
  ARB_RPC := some "http://arb"

/-- Claim C2: with a required RPC endpoint absent or empty, startup
does abort before any tool call is served and the raised ValueError
names the missing chain — but the process exit status is 0, not
non-zero as claimed: the main block catches the exception, logs it and
falls off the end of the script, while the os._exit(1) call lives in
initialize_server, a function the main block never invokes. -/
theorem c2_missing_rpc_abort_exits_zero (env : Env) :
    initialize_blockchain_clients env cfgNoEth =
      .error (.valueError "Missing RPC URL for ethereum") ∧
    initialize_blockchain_clients env cfgEmptyEth =
      .error (.valueError "Missing RPC URL for ethereum") ∧
    (main_run env cfgNoEth).servedRequests = false ∧
    (main_run env cfgNoEth).exitCode = 0 ∧
    (main_run env cfgEmptyEth).servedRequests = false ∧
    (main_run env cfgEmptyEth).exitCode = 0 ∧
    initialize_server env cfgNoEth = .exited 1 := by
  have h1 : initialize_blockchain_clients env cfgNoEth =
      .error (.valueError "Missing RPC URL for ethereum") := rfl
  have h2 : initialize_blockchain_clients env cfgEmptyEth =
      .error (.valueError "Missing RPC URL for ethereum") := rfl
  refine ⟨h1, h2, ?_, ?_, ?_, ?_, ?_⟩ <;>
    simp [main_run, initialize_server, h1, h2]

/-- Claim C3: get_wallet_balance routes each supported alias, matched
on the lowercased chain string, to the branch consulting the correct
registry entry (eth and ethereum to the ethereum client, polygon and
matic to the polygon client, arbitrum and solana to theirs), and any
other chain string yields the unsupported-chain error — a constant
independent of the environment and registry, so no network call is
involved. -/
theorem c3_chain_routing (env : Env) (clients : Registry) (address chain : String) :
    ((pyLower chain = "eth" ∨ pyLower chain = "ethereum") →
      get_wallet_balance env clients address chain =
        handle (evmBranch clients "ethereum" "Ethereum" address)) ∧
    ((pyLower chain = "polygon" ∨ pyLower chain = "matic") →
      get_wallet_balance env clients address chain =
        handle (evmBranch clients "polygon" "Polygon" address)) ∧
    (pyLower chain = "arbitrum" →
      get_wallet_balance env clients address chain =
        handle (evmBranch clients "arbitrum" "Arbitrum" address)) ∧
    (pyLower chain = "solana" →
      get_wallet_balance env clients address chain =
        handle (solBranch env clients address)) ∧
    (pyLower chain ∉
        (["eth", "ethereum", "polygon", "matic", "arbitrum", "solana"] : List String) →
      get_wallet_balance env clients address chain = .error "Unsupported chain") :=
  ⟨gwb_eth env clients address chain, gwb_polygon env clients address chain,
   gwb_arbitrum env clients address chain, gwb_solana env clients address chain,
   gwb_unsupported env clients address chain⟩

/-- Witness for C3 at uppercase and mixed-case aliases and at an
unsupported chain string. -/
theorem c3_witness :
    get_wallet_balance envW regW4 "addr" "ETH" =
      handle (evmBranch regW4 "ethereum" "Ethereum" "addr") ∧
    get_wallet_balance envW regW4 "addr" "MATIC" =
      handle (evmBranch regW4 "polygon" "Polygon" "addr") ∧
    get_wallet_balance envW regW4 "addr" "Arbitrum" =
      handle (evmBranch regW4 "arbitrum" "Arbitrum" "addr") ∧
    get_wallet_balance envW regW4 "addr" "SOLANA" =
      handle (solBranch envW regW4 "addr") ∧
    get_wallet_balance envW regW4 "addr" "dogecoin" = .error "Unsupported chain" :=
  ⟨(c3_chain_routing envW regW4 "addr" "ETH").1 (by decide),
   (c3_chain_routing envW regW4 "addr" "MATIC").2.1 (by decide),
   (c3_chain_routing envW regW4 "addr" "Arbitrum").2.2.1 (by decide),
   (c3_chain_routing envW regW4 "addr" "SOLANA").2.2.2.1 (by decide),
   (c3_chain_routing envW regW4 "addr" "dogecoin").2.2.2.2 (by decide)⟩

/-- Claim C4: on every successful balance query the reported amount is
the raw smallest-unit integer divided by the fixed per-family scale:
10 to the 18 for each of the three account-model chains, 10 to the 9
for solana. -/
theorem c4_unit_scale (env : Env) (clients : Registry) (address chain : String) :
    (∀ (f : String → Except Exc Nat) (w : Nat),
      (pyLower chain = "eth" ∨ pyLower chain = "ethereum") →
      lookupClient clients "ethereum" = .ok (.evm f) → f address = .ok w →
      get_wallet_balance env clients address chain =
        .ok "Ethereum" ((w : ℚ) / 10 ^ 18)) ∧
    (∀ (f : String → Except Exc Nat) (w : Nat),
      (pyLower chain = "polygon" ∨ pyLower chain = "matic") →
      lookupClient clients "polygon" = .ok (.evm f) → f address = .ok w →
      get_wallet_balance env clients address chain =
        .ok "Polygon" ((w : ℚ) / 10 ^ 18)) ∧
    (∀ (f : String → Except Exc Nat) (w : Nat),
      pyLower chain = "arbitrum" →
      lookupClient clients "arbitrum" = .ok (.evm f) → f address = .ok w →
      get_wallet_balance env clients address chain =
        .ok "Arbitrum" ((w : ℚ) / 10 ^ 18)) ∧
    (∀ (pk : String) (g : String → Except Exc Nat) (w : Nat),
      pyLower chain = "solana" →
      env.pubkey_from_string address = .ok pk →
      lookupClient clients "solana" = .ok (.sol g) → g pk = .ok w →
      get_wallet_balance env clients address chain =
        .ok "Solana" ((w : ℚ) / 10 ^ 9)) := by
  refine ⟨?_, ?_, ?_, ?_⟩
  · intro f w hc hl hw
    rw [gwb_eth env clients address chain hc]
    exact evmBranch_balance clients "ethereum" "Ethereum" address f w hl hw
  · intro f w hc hl hw
    rw [gwb_polygon env clients address chain hc]
    exact evmBranch_balance clients "polygon" "Polygon" address f w hl hw
  · intro f w hc hl hw
    rw [gwb_arbitrum env clients address chain hc]
    exact evmBranch_balance clients "arbitrum" "Arbitrum" address f w hl hw
  · intro pk g w hc hp hl hw
    rw [gwb_solana env clients address chain hc]
    exact solBranch_balance env clients address pk g w hp hl hw

/-- Witness for C4: a raw account-model balance of 10 to the 18 wei is
reported as exactly 1, and a raw solana balance of 500000000 lamports
is reported as exactly one half. -/
theorem c4_witness :
    get_wallet_balance envW regW4 "0xabc" "ethereum" = .ok "Ethereum" 1 ∧
    get_wallet_balance envW regW4 "Addr" "solana" = .ok "Solana" (1 / 2) := by
  constructor
  · have h := (c4_unit_scale envW regW4 "0xabc" "ethereum").1
      (fun _ => .ok (10 ^ 18)) (10 ^ 18) (by decide) rfl rfl
    rw [h]
    norm_num
  · have h := (c4_unit_scale envW regW4 "Addr" "solana").2.2.2
      "Addr" (fun _ => .ok 500000000) 500000000 (by decide) rfl rfl rfl
    rw [h]
    norm_num

/-- Claim C5: whenever get_wallet_balance produces an error dict,
analyze_wallet_risk with the same inputs returns exactly that error
dict and issues zero classification requests. -/
theorem c5_error_propagation (env : Env) (clients : Registry)
    (address chain msg : String)
    (h : get_wallet_balance env clients address chain = .error msg) :
    analyze_wallet_risk env clients address chain = (.error msg, 0) := by
  simp [analyze_wallet_risk, h]

/-- Witness for C5 at an unsupported chain string. -/
theorem c5_witness :
    analyze_wallet_risk envW regW4 "addr" "dogecoin" =
      (.error "Unsupported chain", 0) :=
  c5_error_propagation envW regW4 "addr" "dogecoin" "Unsupported chain" (by decide)

/-- Claim C6: a solana address on which the pubkey parser raises a
ValueError yields the fixed invalid-address error dict, which is a
structured error value distinct from the unsupported-chain error. -/
theorem c6_invalid_solana_address (env : Env) (clients : Registry)
    (address chain m : String)
    (hc : pyLower chain = "solana")
    (hp : env.pubkey_from_string address = .error (.valueError m)) :
    get_wallet_balance env clients address chain = .error "Invalid wallet address" ∧
    "Invalid wallet address" ≠ "Unsupported chain" := by
  refine ⟨?_, by decide⟩
  rw [gwb_solana env clients address chain hc]
  exact solBranch_invalid env clients address m hp

/-- Witness for C6: the concrete malformed address is rejected by the
parser and reported as the invalid-address error. -/
theorem c6_witness :
    get_wallet_balance envW regW4 "bad" "Solana" = .error "Invalid wallet address" ∧
    "Invalid wallet address" ≠ "Unsupported chain" :=
  c6_invalid_solana_address envW regW4 "bad" "Solana"
    "string decoded to wrong size for type" (by decide) rfl

/-- Success-path composition of analyze_wallet_risk: a successful
balance, a successful classification of the built prompt, and a
nonempty candidate list merge into the success dict with exactly one
classification request. -/
theorem analyze_ok (env : Env) (clients : Registry) (address chain bchain : String)
    (balance : ℚ) (results : List Candidate) (best : Candidate)
    (h1 : get_wallet_balance env clients address chain = .ok bchain balance)
    (h2 : env.classify (promptFor address balance chain) = .ok results)
    (h3 : pymax results = some best) :
    analyze_wallet_risk env clients address chain =
      (.ok address chain balance best, 1) := by
  simp [analyze_wallet_risk, h1, h2, h3]

/-- Claim C7: the selected candidate is an element of the response
list, its score bounds every score in the list, and it is the first
element of the list whose score reaches that bound (first-max
tie-breaking); on the success path the result merges address, chain,
balance and that candidate with exactly one classification request. -/
theorem c7_max_score_selection :
    (∀ (results : List Candidate) (best : Candidate),
      pymax results = some best →
      best ∈ results ∧
      (∀ y ∈ results, y.score ≤ best.score) ∧
      results.find? (fun z => decide (best.score ≤ z.score)) = some best) ∧
    (∀ (env : Env) (clients : Registry) (address chain bchain : String)
        (balance : ℚ) (results : List Candidate) (best : Candidate),
      get_wallet_balance env clients address chain = .ok bchain balance →
      env.classify (promptFor address balance chain) = .ok results →
      pymax results = some best →
      analyze_wallet_risk env clients address chain =
        (.ok address chain balance best, 1)) := by
  constructor
  · intro results best h
    cases results with
    | nil => simp [pymax] at h
    | cons x xs =>
      simp only [pymax, Option.some.injEq] at h
      subst h
      refine ⟨pymax_fold_mem xs x, ?_, ?_⟩
      · intro y hy
        rcases List.mem_cons.1 hy with h1 | h1
        · rw [h1]; exact (pymax_fold_le xs x).1
        · exact (pymax_fold_le xs x).2 y h1
      · rcases pymax_fold_first xs x with h | ⟨h1, h2⟩
        · rw [h]
          rw [List.find?_cons_of_pos]
          simp
        · rw [List.find?_cons_of_neg _ (by simpa using not_le.2 h1), h2]
  · intro env clients address chain bchain balance results best h1 h2 h3
    exact analyze_ok env clients address chain bchain balance results best h1 h2 h3

/-- Witness for C7 at the specification example list: the second
candidate, negative with score nine tenths, is selected and merged. -/
theorem c7_witness :
    analyze_wallet_risk envW regW4 "0xabc" "eth" =
      (.ok "0xabc" "eth" 1 ⟨"negative", 9 / 10⟩, 1) ∧
    (⟨"negative", 9 / 10⟩ : Candidate) ∈
      ([⟨"positive", 1 / 5⟩, ⟨"negative", 9 / 10⟩] : List Candidate) ∧
    (∀ y ∈ ([⟨"positive", 1 / 5⟩, ⟨"negative", 9 / 10⟩] : List Candidate),
      y.score ≤ (⟨"negative", 9 / 10⟩ : Candidate).score) := by
  have hmax : pymax [⟨"positive", 1 / 5⟩, ⟨"negative", 9 / 10⟩] =
      some (⟨"negative", 9 / 10⟩ : Candidate) := by
    simp [pymax]
    norm_num
  have hgwb : get_wallet_balance envW regW4 "0xabc" "eth" = .ok "Ethereum" 1 := by
    have h : get_wallet_balance envW regW4 "0xabc" "eth" =
        .ok "Ethereum" (((10 ^ 18 : Nat) : ℚ) / 10 ^ 18) := rfl
    rw [h]
    norm_num
  have hsel := (c7_max_score_selection).1
    [⟨"positive", 1 / 5⟩, ⟨"negative", 9 / 10⟩] ⟨"negative", 9 / 10⟩ hmax
  exact ⟨(c7_max_score_selection).2 envW regW4 "0xabc" "eth" "Ethereum" 1
      [⟨"positive", 1 / 5⟩, ⟨"negative", 9 / 10⟩] ⟨"negative", 9 / 10⟩ hgwb rfl hmax,
    hsel.1, hsel.2.1⟩

/-- Claim C8: the handler body may raise, but get_wallet_balance always
returns a structured result: every exception the body produces is
converted into an error dict with a string message, and every outcome
of the handler is either a success dict or an error dict. -/
theorem c8_no_exception_escapes (env : Env) (clients : Registry)
    (address chain : String) :
    (∀ e : Exc, get_wallet_balance_body env clients address chain = .error e →
      ∃ msg, get_wallet_balance env clients address chain = .error msg) ∧
    ((∃ ch bal, get_wallet_balance env clients address chain = .ok ch bal) ∨
      ∃ msg, get_wallet_balance env clients address chain = .error msg) := by
  constructor
  · intro e he
    unfold get_wallet_balance
    rw [he]
    cases e with
    | valueError m => exact ⟨"Invalid wallet address", rfl⟩
    | keyError k => exact ⟨excMessage (.keyError k), rfl⟩
    | otherError m => exact ⟨excMessage (.otherError m), rfl⟩
  · cases hg : get_wallet_balance env clients address chain with
    | ok ch bal => exact Or.inl ⟨ch, bal, rfl⟩
    | error m => exact Or.inr ⟨m, rfl⟩

/-- Witness for C8: against an empty registry the ethereum path raises
KeyError inside the body, and the handler still returns an error
dict. -/
theorem c8_witness :
    ∃ msg, get_wallet_balance envW ([] : Registry) "addr" "eth" = .error msg :=
  (c8_no_exception_escapes envW [] "addr" "eth").1 (.keyError "ethereum") rfl

/-- Claim C9: every ValueError the body raises — wherever it
originates, including a balance call on an account-model chain path —
is mapped to the fixed invalid-address error dict. -/
theorem c9_valueerror_mapping (env : Env) (clients : Registry)
    (address chain : String) :
    (∀ m, get_wallet_balance_body env clients address chain =
        .error (.valueError m) →
      get_wallet_balance env clients address chain =
        .error "Invalid wallet address") ∧
    (∀ (f : String → Except Exc Nat) (m : String),
      (pyLower chain = "eth" ∨ pyLower chain = "ethereum") →
      lookupClient clients "ethereum" = .ok (.evm f) →
      f address = .error (.valueError m) →
      get_wallet_balance env clients address chain =
        .error "Invalid wallet address") := by
  constructor
  · intro m hm
    unfold get_wallet_balance
    rw [hm]
    rfl
  · intro f m hc hl hw
    rw [gwb_eth env clients address chain hc]
    exact evmBranch_valueError clients "ethereum" "Ethereum" address f m hl hw

/-- Registry whose ethereum client raises the ValueError web3 produces
for a malformed hex address. -/
def regBadEvm : Registry :=
  [("ethereum", Client.evm fun _ =>
    .error (.valueError "when sending a str, it must be a hex string"))]

/-- Witness for C9: an account-model chain path whose balance call
raises ValueError reports the invalid-address error. -/
theorem c9_witness :
    get_wallet_balance envW regBadEvm "0xZZ" "ETH" =
      .error "Invalid wallet address" :=
  (c9_valueerror_mapping envW regBadEvm "0xZZ" "ETH").2
    (fun _ => .error (.valueError "when sending a str, it must be a hex string"))
    "when sending a str, it must be a hex string" (by decide) rfl rfl

/-- Claim C10: every success dict of get_wallet_balance reports the
canonical capitalized chain name determined by the alias, while a
success dict of analyze_wallet_risk echoes the caller-supplied address
and chain strings unmodified. -/
theorem c10_chain_reporting (env : Env) (clients : Registry)
    (address chain : String) :
    (∀ (ch : String) (bal : ℚ),
      get_wallet_balance env clients address chain = .ok ch bal →
      ((pyLower chain = "eth" ∨ pyLower chain = "ethereum") ∧ ch = "Ethereum") ∨
      ((pyLower chain = "polygon" ∨ pyLower chain = "matic") ∧ ch = "Polygon") ∨
      (pyLower chain = "arbitrum" ∧ ch = "Arbitrum") ∨
      (pyLower chain = "solana" ∧ ch = "Solana")) ∧
    (∀ (a ch : String) (bal : ℚ) (r : Candidate) (n : Nat),
      analyze_wallet_risk env clients address chain = (.ok a ch bal r, n) →
      a = address ∧ ch = chain) := by
  constructor
  · intro ch bal hok
    by_cases h1 : pyLower chain = "eth" ∨ pyLower chain = "ethereum"
    · exact Or.inl ⟨h1, evmBranch_ok_chain clients "ethereum" "Ethereum" address ch bal
        (by rw [← gwb_eth env clients address chain h1]; exact hok)⟩
    · by_cases h2 : pyLower chain = "polygon" ∨ pyLower chain = "matic"
      · exact Or.inr (Or.inl ⟨h2,
          evmBranch_ok_chain clients "polygon" "Polygon" address ch bal
            (by rw [← gwb_polygon env clients address chain h2]; exact hok)⟩)
      · by_cases h3 : pyLower chain = "arbitrum"
        · exact Or.inr (Or.inr (Or.inl ⟨h3,
            evmBranch_ok_chain clients "arbitrum" "Arbitrum" address ch bal
              (by rw [← gwb_arbitrum env clients address chain h3]; exact hok)⟩))
        · by_cases h4 : pyLower chain = "solana"
          · exact Or.inr (Or.inr (Or.inr ⟨h4,
              solBranch_ok_chain env clients address ch bal
                (by rw [← gwb_solana env clients address chain h4]; exact hok)⟩))
          · exfalso
            have hu := gwb_unsupported env clients address chain (by
              simp only [List.mem_cons, List.not_mem_nil, or_false, not_or]
              push_neg at h1 h2
              exact ⟨h1.1, h1.2, h2.1, h2.2, h3, h4⟩)
            rw [hu] at hok
            exact BalanceResult.noConfusion hok
  · intro a ch bal r n h
    unfold analyze_wallet_risk at h
    split at h
    · simp at h
    · split at h
      · simp at h
      · split at h
        · simp at h
        · simp only [Prod.mk.injEq, RiskResult.ok.injEq] at h
          exact ⟨h.1.1.symm, h.1.2.1.symm⟩

/-- Witness for C10 at the mixed-case alias eTh: the balance dict
reports Ethereum while the risk dict echoes eTh. -/
theorem c10_witness :
    (((pyLower "eTh" = "eth" ∨ pyLower "eTh" = "ethereum") ∧
        ("Ethereum" : String) = "Ethereum") ∨
      ((pyLower "eTh" = "polygon" ∨ pyLower "eTh" = "matic") ∧
        ("Ethereum" : String) = "Polygon") ∨
      (pyLower "eTh" = "arbitrum" ∧ ("Ethereum" : String) = "Arbitrum") ∨
      (pyLower "eTh" = "solana" ∧ ("Ethereum" : String) = "Solana")) ∧
    (("0xabc" : String) = "0xabc" ∧ ("eTh" : String) = "eTh") := by
  have hgwb : get_wallet_balance envW regW4 "0xabc" "eTh" = .ok "Ethereum" 1 := by
    have h : get_wallet_balance envW regW4 "0xabc" "eTh" =
        .ok "Ethereum" (((10 ^ 18 : Nat) : ℚ) / 10 ^ 18) := rfl
    rw [h]
    norm_num
  have hmax : pymax [⟨"positive", 1 / 5⟩, ⟨"negative", 9 / 10⟩] =
      some (⟨"negative", 9 / 10⟩ : Candidate) := by
    simp [pymax]
    norm_num
  have hana := analyze_ok envW regW4 "0xabc" "eTh" "Ethereum" 1
    [⟨"positive", 1 / 5⟩, ⟨"negative", 9 / 10⟩] ⟨"negative", 9 / 10⟩ hgwb rfl hmax
  exact ⟨(c10_chain_reporting envW regW4 "0xabc" "eTh").1 "Ethereum" 1 hgwb,
    (c10_chain_reporting envW regW4 "0xabc" "eTh").2 "0xabc" "eTh" 1
      ⟨"negative", 9 / 10⟩ 1 hana⟩

end EthBalance
